import Mathlib

/-!
Shallow embedding of the SBOM download helpers in
`spog/ui/crates/components/src/download.rs`:

* `spdx_purpose_to_classification` — the fixed SPDX purpose → CycloneDX
  classification table;
* `generate_cyclonedx` — the SPDX → CycloneDX conversion routine (the
  per-package loop body is factored out as `packageToComponent`);
* `safe_filename` — the filesystem-safe filename sanitizer.

The purl parser (`Purl::from_str`, an external crate) is modelled as an
explicit parameter `parsePurl : String → Option String`: the conversion
routine only ever checks whether the locator parses and stores the result.
-/

namespace Download

/-- SPDX `PrimaryPackagePurpose` (the 12 source purpose tags). -/
inductive PrimaryPackagePurpose where
  | Application | Framework | Library | Container | OperatingSystem
  | Device | Firmware | Source | Archive | File | Install | Other
  deriving DecidableEq, Repr

/-- CycloneDX component classification (the target vocabulary used here). -/
inductive Classification where
  | Application | Framework | Library | Container | OperatingSystem
  | Device | Firmware | File
  deriving DecidableEq, Repr

/-- One SPDX external reference: a `(reference_type, reference_locator)` pair. -/
structure ExternalReference where
  reference_type : String
  reference_locator : String
  deriving DecidableEq, Repr

/-- One SPDX package record, with the fields `generate_cyclonedx` reads. -/
structure PackageInformation where
  package_name : String
  package_version : Option String
  package_spdx_identifier : String
  primary_package_purpose : Option PrimaryPackagePurpose
  package_summary_description : Option String
  package_detailed_description : Option String
  external_reference : List ExternalReference
  deriving DecidableEq, Repr

/-- The SPDX document, restricted to the part the converter reads. -/
structure SPDX where
  package_information : List PackageInformation
  deriving DecidableEq, Repr

/-- A CycloneDX component record (the fields the converter produces). -/
structure Component where
  classification : Classification
  name : String
  version : Option String
  bom_ref : Option String
  description : Option String
  purl : Option String
  deriving DecidableEq, Repr

/-- `Component::new(classification, name, version, bom_ref)`: description and
purl start unset, the version argument is stored as present. -/
def Component.new (classification : Classification) (name : String)
    (version : String) (bom_ref : Option String) : Component :=
  { classification := classification
    name := name
    version := some version
    bom_ref := bom_ref
    description := none
    purl := none }

/-- CycloneDX spec versions appearing in the code. -/
inductive SpecVersion where
  | V1_3 | V1_4
  deriving DecidableEq, Repr

/-- The CycloneDX BOM, restricted to the fields the converter writes. -/
structure Bom where
  spec_version : SpecVersion
  components : Option (List Component)
  deriving DecidableEq, Repr

/-- `Bom::default()`. -/
def Bom.default : Bom :=
  { spec_version := SpecVersion.V1_3, components := none }

/-- The conversion error: the code bails with
"No packages found in SPDX document" when no components were produced. -/
inductive GenerateError where
  | emptyResult
  deriving DecidableEq, Repr

/-- ASCII lowercasing of one character, as in Rust's `to_ascii_lowercase`. -/
def toAsciiLower (ch : Char) : Char :=
  if 'A' ≤ ch && ch ≤ 'Z' then Char.ofNat (ch.toNat + 32) else ch

/-- Rust's `str::eq_ignore_ascii_case`. -/
def eqIgnoreAsciiCase (a b : String) : Bool :=
  a.data.map toAsciiLower == b.data.map toAsciiLower

/-- `spdx_purpose_to_classification`: the fixed total lookup table. -/
def spdx_purpose_to_classification : PrimaryPackagePurpose → Classification
  | PrimaryPackagePurpose.Application => Classification.Application
  | PrimaryPackagePurpose.Framework => Classification.Framework
  | PrimaryPackagePurpose.Library => Classification.Library
  | PrimaryPackagePurpose.Container => Classification.Container
  | PrimaryPackagePurpose.OperatingSystem => Classification.OperatingSystem
  | PrimaryPackagePurpose.Device => Classification.Device
  | PrimaryPackagePurpose.Firmware => Classification.Firmware
  | PrimaryPackagePurpose.Source => Classification.File
  | PrimaryPackagePurpose.Archive => Classification.File
  | PrimaryPackagePurpose.File => Classification.File
  | PrimaryPackagePurpose.Install => Classification.Application
  | PrimaryPackagePurpose.Other => Classification.Application

/-- The `if package.package_version.is_none() { component.version = None; }`
step of the loop body. -/
def applyVersionFix (package : PackageInformation) (c : Component) : Component :=
  if package.package_version.isNone then { c with version := none } else c

/-- The `if let Some(description) = summary.or(detailed)` step of the loop
body. -/
def applyDescription (package : PackageInformation) (c : Component) : Component :=
  match package.package_summary_description.or package.package_detailed_description with
  | some description => { c with description := some description }
  | none => c

/-- The purl-extraction step of the loop body: find the first external
reference whose type matches "purl" case-insensitively, try to parse its
locator, and on success store the result. -/
def applyPurl (parsePurl : String → Option String) (package : PackageInformation)
    (c : Component) : Component :=
  match package.external_reference.find?
      (fun reference => eqIgnoreAsciiCase reference.reference_type "purl") with
  | some purlRef =>
    match parsePurl purlRef.reference_locator with
    | some purl => { c with purl := some purl }
    | none => c
  | none => c

/-- The body of the `for package in &spdx.package_information` loop of
`generate_cyclonedx`: builds one component from one package. -/
def packageToComponent (parsePurl : String → Option String)
    (package : PackageInformation) : Component :=
  let classification :=
    (package.primary_package_purpose.map spdx_purpose_to_classification).getD
      Classification.Library
  let default_version := package.package_version.getD ""
  let component := Component.new classification package.package_name default_version
    (some package.package_spdx_identifier)
  let component := applyVersionFix package component
  let component := applyDescription package component
  applyPurl parsePurl package component

/-- `generate_cyclonedx`, up to JSON serialization (which is performed by the
external `cyclonedx_bom` crate on the returned BOM): build one component per
package in order, bail out with the empty-result error when no components
were produced, otherwise return the assembled BOM. -/
def generate_cyclonedx (parsePurl : String → Option String) (spdx : SPDX) :
    Except GenerateError Bom :=
  let bom := { Bom.default with spec_version := SpecVersion.V1_4 }
  let components := spdx.package_information.map (packageToComponent parsePurl)
  if components.isEmpty then
    Except.error GenerateError.emptyResult
  else
    Except.ok { bom with components := some components }

/-- One character of `safe_filename`: characters in `[A-Za-z0-9._-]` are kept,
all others become an underscore. -/
def safeChar (ch : Char) : Char :=
  if ('a' ≤ ch && ch ≤ 'z') || ('A' ≤ ch && ch ≤ 'Z') || ('0' ≤ ch && ch ≤ '9')
      || ch == '-' || ch == '_' || ch == '.' then
    ch
  else
    '_'

/-- `safe_filename`: sanitize every character, fall back to "sbom" when the
sanitized string is empty. -/
def safe_filename (input : String) : String :=
  let sanitized := String.mk (input.data.map safeChar)
  if sanitized.isEmpty then "sbom" else sanitized

/-! ### Field projections of the loop-body steps -/

theorem applyVersionFix_classification (package : PackageInformation) (c : Component) :
    (applyVersionFix package c).classification = c.classification := by
  unfold applyVersionFix; split <;> rfl

theorem applyVersionFix_name (package : PackageInformation) (c : Component) :
    (applyVersionFix package c).name = c.name := by
  unfold applyVersionFix; split <;> rfl

theorem applyVersionFix_bom_ref (package : PackageInformation) (c : Component) :
    (applyVersionFix package c).bom_ref = c.bom_ref := by
  unfold applyVersionFix; split <;> rfl

theorem applyVersionFix_description (package : PackageInformation) (c : Component) :
    (applyVersionFix package c).description = c.description := by
  unfold applyVersionFix; split <;> rfl

theorem applyVersionFix_purl (package : PackageInformation) (c : Component) :
    (applyVersionFix package c).purl = c.purl := by
  unfold applyVersionFix; split <;> rfl

theorem applyVersionFix_version (package : PackageInformation) (c : Component) :
    (applyVersionFix package c).version =
      if package.package_version.isNone then none else c.version := by
  unfold applyVersionFix; split <;> simp_all

theorem applyDescription_classification (package : PackageInformation) (c : Component) :
    (applyDescription package c).classification = c.classification := by
  unfold applyDescription; split <;> rfl

theorem applyDescription_name (package : PackageInformation) (c : Component) :
    (applyDescription package c).name = c.name := by
  unfold applyDescription; split <;> rfl

theorem applyDescription_version (package : PackageInformation) (c : Component) :
    (applyDescription package c).version = c.version := by
  unfold applyDescription; split <;> rfl

theorem applyDescription_bom_ref (package : PackageInformation) (c : Component) :
    (applyDescription package c).bom_ref = c.bom_ref := by
  unfold applyDescription; split <;> rfl

theorem applyDescription_purl (package : PackageInformation) (c : Component) :
    (applyDescription package c).purl = c.purl := by
  unfold applyDescription; split <;> rfl

theorem applyDescription_description (package : PackageInformation) (c : Component) :
    (applyDescription package c).description =
      match package.package_summary_description.or package.package_detailed_description with
      | some d => some d
      | none => c.description := by
  unfold applyDescription
  cases package.package_summary_description.or package.package_detailed_description <;> rfl

theorem applyPurl_classification (parsePurl : String → Option String)
    (package : PackageInformation) (c : Component) :
    (applyPurl parsePurl package c).classification = c.classification := by
  unfold applyPurl; split <;> first | rfl | (split <;> rfl)

theorem applyPurl_name (parsePurl : String → Option String)
    (package : PackageInformation) (c : Component) :
    (applyPurl parsePurl package c).name = c.name := by
  unfold applyPurl; split <;> first | rfl | (split <;> rfl)

theorem applyPurl_version (parsePurl : String → Option String)
    (package : PackageInformation) (c : Component) :
    (applyPurl parsePurl package c).version = c.version := by
  unfold applyPurl; split <;> first | rfl | (split <;> rfl)

theorem applyPurl_bom_ref (parsePurl : String → Option String)
    (package : PackageInformation) (c : Component) :
    (applyPurl parsePurl package c).bom_ref = c.bom_ref := by
  unfold applyPurl; split <;> first | rfl | (split <;> rfl)

theorem applyPurl_description (parsePurl : String → Option String)
    (package : PackageInformation) (c : Component) :
    (applyPurl parsePurl package c).description = c.description := by
  unfold applyPurl; split <;> first | rfl | (split <;> rfl)

theorem applyPurl_purl (parsePurl : String → Option String)
    (package : PackageInformation) (c : Component) :
    (applyPurl parsePurl package c).purl =
      match package.external_reference.find?
          (fun reference => eqIgnoreAsciiCase reference.reference_type "purl") with
      | some purlRef =>
        match parsePurl purlRef.reference_locator with
        | some purl => some purl
        | none => c.purl
      | none => c.purl := by
  unfold applyPurl
  cases package.external_reference.find?
      (fun reference => eqIgnoreAsciiCase reference.reference_type "purl") with
  | none => rfl
  | some purlRef => cases h : parsePurl purlRef.reference_locator <;> simp [h]

/-! ### Field projections of the full loop body -/

theorem packageToComponent_classification (parsePurl : String → Option String)
    (package : PackageInformation) :
    (packageToComponent parsePurl package).classification =
      (package.primary_package_purpose.map spdx_purpose_to_classification).getD
        Classification.Library := by
  simp [packageToComponent, applyPurl_classification, applyDescription_classification,
    applyVersionFix_classification, Component.new]

theorem packageToComponent_name (parsePurl : String → Option String)
    (package : PackageInformation) :
    (packageToComponent parsePurl package).name = package.package_name := by
  simp [packageToComponent, applyPurl_name, applyDescription_name,
    applyVersionFix_name, Component.new]

theorem packageToComponent_version (parsePurl : String → Option String)
    (package : PackageInformation) :
    (packageToComponent parsePurl package).version = package.package_version := by
  simp only [packageToComponent, applyPurl_version, applyDescription_version,
    applyVersionFix_version]
  cases package.package_version <;> simp [Component.new]

theorem packageToComponent_bom_ref (parsePurl : String → Option String)
    (package : PackageInformation) :
    (packageToComponent parsePurl package).bom_ref =
      some package.package_spdx_identifier := by
  simp [packageToComponent, applyPurl_bom_ref, applyDescription_bom_ref,
    applyVersionFix_bom_ref, Component.new]

theorem packageToComponent_description (parsePurl : String → Option String)
    (package : PackageInformation) :
    (packageToComponent parsePurl package).description =
      package.package_summary_description.or package.package_detailed_description := by
  simp only [packageToComponent, applyPurl_description, applyDescription_description,
    applyVersionFix_description]
  cases package.package_summary_description.or package.package_detailed_description <;>
    simp [Component.new]

theorem packageToComponent_purl (parsePurl : String → Option String)
    (package : PackageInformation) :
    (packageToComponent parsePurl package).purl =
      (package.external_reference.find?
          (fun reference => eqIgnoreAsciiCase reference.reference_type "purl")).bind
        (fun purlRef => parsePurl purlRef.reference_locator) := by
  simp only [packageToComponent, applyPurl_purl, applyDescription_purl,
    applyVersionFix_purl]
  cases package.external_reference.find?
      (fun reference => eqIgnoreAsciiCase reference.reference_type "purl") with
  | none => simp [Component.new]
  | some purlRef =>
    cases h : parsePurl purlRef.reference_locator <;> simp [Component.new, h]

/-! ### Spec-side sanitizer (for the refinement claims about `safe_filename`) -/

/-- Membership in the character set `[A-Za-z0-9._-]`, written in the order the
specification lists it. -/
def specAllowedChar (ch : Char) : Bool :=
  ('A' ≤ ch && ch ≤ 'Z') || ('a' ≤ ch && ch ≤ 'z') || ('0' ≤ ch && ch ≤ '9')
    || ch == '.' || ch == '_' || ch == '-'

/-- Modelled from the spec: the sanitizer as the specification describes it —
replace every character outside `[A-Za-z0-9._-]` with an underscore, and fall
back to the literal "sbom" exactly when the string so produced is empty. -/
def specSanitize (input : String) : String :=
  let mapped := input.data.map (fun ch => if specAllowedChar ch then ch else '_')
  if mapped = [] then "sbom" else String.mk mapped

theorem safeChar_eq_spec (ch : Char) :
    safeChar ch = if specAllowedChar ch then ch else '_' := by
  unfold safeChar specAllowedChar
  split <;> split <;> first
    | rfl
    | (exfalso
       simp_all only [Bool.or_eq_true, Bool.and_eq_true, decide_eq_true_eq, beq_iff_eq,
         Bool.not_eq_true, Bool.or_eq_false_iff, Bool.and_eq_false_iff,
         decide_eq_false_iff_not, beq_eq_false_iff_ne, ne_eq]
       tauto)

theorem specAllowedChar_safeChar (ch : Char) : specAllowedChar (safeChar ch) = true := by
  rw [safeChar_eq_spec]
  split
  · assumption
  · decide

theorem safe_filename_eq_specSanitize (input : String) :
    safe_filename input = specSanitize input := by
  unfold safe_filename specSanitize
  have hmap : input.data.map safeChar =
      input.data.map (fun ch => if specAllowedChar ch then ch else '_') :=
    List.map_congr_left (fun ch _ => safeChar_eq_spec ch)
  rw [hmap]
  by_cases h : input.data.map (fun ch => if specAllowedChar ch then ch else '_') = []
  · rw [if_pos h, if_pos]
    rw [String.isEmpty_iff]
    exact congrArg String.mk h
  · rw [if_neg h, if_neg]
    intro hempty
    rw [String.isEmpty_iff] at hempty
    exact h (congrArg String.data hempty)

/-! ### Claim theorems -/

/-- C2: the component classification is computed by the fixed total table
(Application→Application, Framework→Framework, Library→Library,
Container→Container, OperatingSystem→OperatingSystem, Device→Device,
Firmware→Firmware, Source→File, Archive→File, File→File, Install→Application,
Other→Application), and an absent `primary_package_purpose` yields Library, so
every component carries a classification. -/
theorem C2_classification_table :
    (spdx_purpose_to_classification PrimaryPackagePurpose.Application
        = Classification.Application ∧
      spdx_purpose_to_classification PrimaryPackagePurpose.Framework
        = Classification.Framework ∧
      spdx_purpose_to_classification PrimaryPackagePurpose.Library
        = Classification.Library ∧
      spdx_purpose_to_classification PrimaryPackagePurpose.Container
        = Classification.Container ∧
      spdx_purpose_to_classification PrimaryPackagePurpose.OperatingSystem
        = Classification.OperatingSystem ∧
      spdx_purpose_to_classification PrimaryPackagePurpose.Device
        = Classification.Device ∧
      spdx_purpose_to_classification PrimaryPackagePurpose.Firmware
        = Classification.Firmware ∧
      spdx_purpose_to_classification PrimaryPackagePurpose.Source
        = Classification.File ∧
      spdx_purpose_to_classification PrimaryPackagePurpose.Archive
        = Classification.File ∧
      spdx_purpose_to_classification PrimaryPackagePurpose.File
        = Classification.File ∧
      spdx_purpose_to_classification PrimaryPackagePurpose.Install
        = Classification.Application ∧
      spdx_purpose_to_classification PrimaryPackagePurpose.Other
        = Classification.Application) ∧
    ∀ (parsePurl : String → Option String) (package : PackageInformation),
      (packageToComponent parsePurl package).classification =
        match package.primary_package_purpose with
        | some purpose => spdx_purpose_to_classification purpose
        | none => Classification.Library := by
  refine ⟨⟨rfl, rfl, rfl, rfl, rfl, rfl, rfl, rfl, rfl, rfl, rfl, rfl⟩, ?_⟩
  intro parsePurl package
  rw [packageToComponent_classification]
  cases package.primary_package_purpose <;> rfl

/-- C3: the component name equals the source package name verbatim, the
component version equals the source version exactly when present (and is
absent otherwise), and the bom_ref equals the source SPDX identifier. -/
theorem C3_identity_fields (parsePurl : String → Option String)
    (package : PackageInformation) :
    (packageToComponent parsePurl package).name = package.package_name ∧
    (packageToComponent parsePurl package).version = package.package_version ∧
    (packageToComponent parsePurl package).bom_ref =
      some package.package_spdx_identifier :=
  ⟨packageToComponent_name parsePurl package,
    packageToComponent_version parsePurl package,
    packageToComponent_bom_ref parsePurl package⟩

/-- C4: `generate_cyclonedx` fails with the empty-result error exactly when
the source document has zero package records; with at least one package this
error does not occur. -/
theorem C4_empty_result_iff (parsePurl : String → Option String) (spdx : SPDX) :
    generate_cyclonedx parsePurl spdx = Except.error GenerateError.emptyResult ↔
      spdx.package_information = [] := by
  cases spdx with
  | mk pkgs =>
    cases pkgs with
    | nil => simp [generate_cyclonedx]
    | cons p ps => simp [generate_cyclonedx]

/-- C5: the component purl is the parse of the locator of the first external
reference whose type equals "purl" case-insensitively (absent when there is no
such reference or the parse fails), and whether the document-level conversion
succeeds never depends on the purl parser. -/
theorem C5_purl_soft_failure (parsePurl : String → Option String)
    (package : PackageInformation) (spdx : SPDX) :
    (packageToComponent parsePurl package).purl =
      (package.external_reference.find?
          (fun reference => eqIgnoreAsciiCase reference.reference_type "purl")).bind
        (fun purlRef => parsePurl purlRef.reference_locator) ∧
    (generate_cyclonedx parsePurl spdx).isOk =
      (generate_cyclonedx (fun _ => none) spdx).isOk := by
  refine ⟨packageToComponent_purl parsePurl package, ?_⟩
  cases spdx with
  | mk pkgs => cases pkgs <;> rfl

/-- C6: the component description is the summary description when present
(also when both are present), else the detailed description when present, and
absent when neither is present. -/
theorem C6_description_precedence (parsePurl : String → Option String)
    (package : PackageInformation) :
    (packageToComponent parsePurl package).description =
      match package.package_summary_description, package.package_detailed_description with
      | some summary, _ => some summary
      | none, some detailed => some detailed
      | none, none => none := by
  rw [packageToComponent_description]
  cases package.package_summary_description <;>
    cases package.package_detailed_description <;> rfl

/-! ### Example values for the witnesses -/

/-- Example purl parser accepting exactly the example locator. -/
def examplePurlParse : String → Option String := fun s =>
  if s = "pkg:generic/curl@8.1.0" then some s else none

/-- The one-package example document of the spec's end-to-end example. -/
def examplePackage : PackageInformation :=
  { package_name := "curl"
    package_version := some "8.1.0"
    package_spdx_identifier := "SPDXRef-curl"
    primary_package_purpose := some PrimaryPackagePurpose.Library
    package_summary_description := none
    package_detailed_description := none
    external_reference :=
      [{ reference_type := "purl", reference_locator := "pkg:generic/curl@8.1.0" }] }

/-- Example document holding just `examplePackage`. -/
def exampleSPDX : SPDX := { package_information := [examplePackage] }

/-- Example package with two purl-typed references: the first has an
unparsable locator, the second a parsable one. -/
def twoPurlPackage : PackageInformation :=
  { package_name := "foo"
    package_version := none
    package_spdx_identifier := "SPDXRef-foo"
    primary_package_purpose := none
    package_summary_description := none
    package_detailed_description := none
    external_reference :=
      [{ reference_type := "purl", reference_locator := "not-a-purl" },
       { reference_type := "PURL", reference_locator := "pkg:npm/foo@1.0.0" }] }

/-- Example purl parser accepting exactly the npm locator of
`twoPurlPackage`'s second reference. -/
def npmPurlParse : String → Option String := fun s =>
  if s = "pkg:npm/foo@1.0.0" then some s else none

/-- C1: for every source document with at least one package, conversion
succeeds and the components are exactly the per-package conversions of the
source packages in source order — hence exactly N components, the i-th
derived from the i-th package. -/
theorem C1_cardinality_preservation (parsePurl : String → Option String)
    (spdx : SPDX) (h : spdx.package_information ≠ []) :
    ∃ bom, generate_cyclonedx parsePurl spdx = Except.ok bom ∧
      bom.components =
        some (spdx.package_information.map (packageToComponent parsePurl)) ∧
      (spdx.package_information.map (packageToComponent parsePurl)).length =
        spdx.package_information.length := by
  cases spdx with
  | mk pkgs =>
    cases pkgs with
    | nil => exact absurd rfl h
    | cons p ps => exact ⟨_, rfl, rfl, by simp⟩

/-- Witness for C1 at the one-package example document. -/
theorem C1_witness :
    exampleSPDX.package_information ≠ [] ∧
    ∃ bom, generate_cyclonedx examplePurlParse exampleSPDX = Except.ok bom ∧
      bom.components =
        some (exampleSPDX.package_information.map (packageToComponent examplePurlParse)) ∧
      (exampleSPDX.package_information.map (packageToComponent examplePurlParse)).length =
        exampleSPDX.package_information.length :=
  ⟨by decide, C1_cardinality_preservation examplePurlParse exampleSPDX (by decide)⟩

/-- Counterexample to C7: the sanitizer does not map "!!!" to "sbom" — each
'!' is replaced by an underscore, so the sanitized string "___" is non-empty
and the "sbom" fallback is not taken. -/
theorem C7_counterexample : safe_filename "!!!" ≠ "sbom" := by decide

/-- C7 amended: the sanitizer maps "!!!" to "___". -/
theorem C7_sanitize_bangs : safe_filename "!!!" = "___" := by decide

/-- C8: the sanitizer equals the spec's description — replace every character
outside `[A-Za-z0-9._-]` with an underscore, falling back to "sbom" exactly
when the replaced string is empty — and the two spec examples hold. -/
theorem C8_sanitizer_spec (input : String) :
    safe_filename input = specSanitize input ∧
    safe_filename "My Report v1.0.json" = "My_Report_v1.0.json" ∧
    safe_filename "" = "sbom" :=
  ⟨safe_filename_eq_specSanitize input, by decide, by decide⟩

/-- C9: only the first case-insensitive "purl" reference is consulted — when
its locator fails to parse, the component purl is omitted, regardless of any
later parsable purl references. -/
theorem C9_no_purl_fallback (parsePurl : String → Option String)
    (package : PackageInformation) (purlRef : ExternalReference)
    (hfind : package.external_reference.find?
        (fun reference => eqIgnoreAsciiCase reference.reference_type "purl")
      = some purlRef)
    (hfail : parsePurl purlRef.reference_locator = none) :
    (packageToComponent parsePurl package).purl = none := by
  rw [packageToComponent_purl, hfind]
  simp [hfail]

/-- Witness for C9: on the two-reference package, the first purl reference is
the one found, its locator does not parse while the later one would, and the
component purl is omitted. -/
theorem C9_witness :
    twoPurlPackage.external_reference.find?
        (fun reference => eqIgnoreAsciiCase reference.reference_type "purl")
      = some { reference_type := "purl", reference_locator := "not-a-purl" } ∧
    npmPurlParse "not-a-purl" = none ∧
    npmPurlParse "pkg:npm/foo@1.0.0" = some "pkg:npm/foo@1.0.0" ∧
    (packageToComponent npmPurlParse twoPurlPackage).purl = none :=
  ⟨by decide, by decide, by decide,
    C9_no_purl_fallback npmPurlParse twoPurlPackage
      { reference_type := "purl", reference_locator := "not-a-purl" }
      (by decide) (by decide)⟩

/-- C10: the sanitizer output is non-empty, every character of the output
lies in `[A-Za-z0-9._-]`, and for non-empty input the output length equals
the input length, so the "sbom" fallback is reachable only for the empty
input. -/
theorem C10_sanitizer_invariants (input : String) :
    safe_filename input ≠ "" ∧
    (safe_filename input).data.all specAllowedChar = true ∧
    (input ≠ "" → (safe_filename input).length = input.length) := by
  have hval : safe_filename input =
      if (String.mk (input.data.map safeChar)).isEmpty then "sbom"
      else String.mk (input.data.map safeChar) := rfl
  rw [hval]
  by_cases h : (String.mk (input.data.map safeChar)).isEmpty
  · rw [if_pos h]
    have hnil : input.data.map safeChar = [] :=
      congrArg String.data ((String.isEmpty_iff _).mp h)
    have hinput : input = "" := by
      cases input with
      | mk data =>
        cases data with
        | nil => rfl
        | cons c cs => simp at hnil
    exact ⟨by decide, by decide, fun hne => absurd hinput hne⟩
  · rw [if_neg h]
    refine ⟨?_, ?_, fun _ => ?_⟩
    · intro heq
      exact h ((String.isEmpty_iff _).mpr heq)
    · show (input.data.map safeChar).all specAllowedChar = true
      rw [List.all_eq_true]
      intro c hc
      rw [List.mem_map] at hc
      obtain ⟨a, _, rfl⟩ := hc
      exact specAllowedChar_safeChar a
    · show (input.data.map safeChar).length = input.length
      rw [List.length_map]
      rfl

/-- Witness for C10 at a non-empty input with a character outside the set. -/
theorem C10_witness :
    "a b" ≠ "" ∧
    (safe_filename "a b" ≠ "" ∧
      (safe_filename "a b").data.all specAllowedChar = true ∧
      (safe_filename "a b").length = "a b".length) :=
  ⟨by decide,
    (C10_sanitizer_invariants "a b").1,
    (C10_sanitizer_invariants "a b").2.1,
    (C10_sanitizer_invariants "a b").2.2 (by decide)⟩

end Download
